import Mathlib

/-!
Shallow embedding of the policy-chain pipeline pieces of this repository:

* `sdk/core/azure_core/src/http/pipeline.rs` — `Pipeline::new` and `push_unique`;
* `sdk/eventhubs/azure_messaging_eventhubs/src/common/recoverable/receiver.rs` —
  `RecoverableReceiver::should_retry_receive_operation`, `receive_delivery`,
  and the unimplemented `AmqpReceiverApis` operations;
* `sdk/storage/azure_storage_queue/src/clients/sas_token_policy.rs` —
  `SasTokenCredentialPolicy::send`;
* `sdk/identity/azure_identity/src/client_certificate_credential.rs` —
  `ClientCertificateCredential::get_token` and
  `From<TokenCredentialOptions> for ClientCertificateCredentialOptions`.

Each Rust function is translated into an executable Lean function; fallible
collaborators that live outside the analysed sources (base64, openssl, the
HTTP client, ...) are passed in as explicit environment fields so that the
control flow of the translated functions is exercised on all of their
possible answers.
-/

namespace Spec2Proof

/-! ## azure_core::http::pipeline -/

/-- The concrete Rust type of a policy stored in a pipeline segment
(`ClientRequestIdPolicy`, `UserAgentPolicy`, or some caller-supplied type). -/
inductive PolicyKind
  | clientRequestId
  | userAgent
  | custom (n : Nat)
deriving DecidableEq, Repr

/-- One `Arc<dyn Policy>` entry of a policy list, identified by the concrete
type of the policy value it erases. -/
structure Policy where
  kind : PolicyKind
deriving DecidableEq, Repr

/-- A value of Rust's `std::any::TypeId` as far as `push_unique` can observe
it: either the `TypeId` of a concrete policy type, or the `TypeId` of the
type `Arc<dyn Policy>` itself. -/
inductive TypeId
  | ofPolicy (k : PolicyKind)
  | arcDynPolicy
deriving DecidableEq, Repr

/-- The expression `p.type_id()` in `push_unique`, where `p : &Arc<dyn Policy>`.

Rust method resolution walks the autoderef chain `&Arc<dyn Policy>`,
`Arc<dyn Policy>`, `dyn Policy` and stops at the first step with an
applicable `type_id` method.  The step `&Arc<dyn Policy>` fails (the
reference is not `'static`), and at the step `Arc<dyn Policy>` the blanket
`impl<T: 'static + ?Sized> Any for T` applies by autoref; that impl is
resolved statically with `T = Arc<dyn Policy>`, so the call returns
`TypeId::of::<Arc<dyn Policy>>()` — a constant that does not depend on the
concrete policy type behind `p`. -/
def Policy.arcTypeId (_ : Policy) : TypeId := TypeId.arcDynPolicy

/-- `fn push_unique<T: Policy + 'static>(policies: &mut Vec<Arc<dyn Policy>>, policy: T)`
(pipeline.rs lines 68–73):

```rust
if policies.iter().all(|p| TypeId::of::<T>() != p.type_id()) {
    policies.push(Arc::new(policy));
}
```

`k` stands for the concrete type `T` of the pushed policy, and
`Policy.arcTypeId` for the resolved `p.type_id()` call (see its docstring). -/
def push_unique (policies : List Policy) (k : PolicyKind) : List Policy :=
  if policies.all (fun p => decide (TypeId.ofPolicy k ≠ p.arcTypeId)) then
    policies ++ [⟨k⟩]
  else
    policies

/-- The `user_agent` part of `ClientOptions` that `Pipeline::new` consults
(`UserAgentOptions.disabled`). -/
structure UserAgentOptions where
  disabled : Bool
deriving DecidableEq, Repr

/-- The per-call segment assembled by `Pipeline::new` (pipeline.rs lines 44–65):

```rust
let mut per_call_policies = per_call_policies.clone();
push_unique(&mut per_call_policies, ClientRequestIdPolicy::default());
let (user_agent, options) = options.deconstruct();
if !user_agent.disabled {
    let telemetry_policy = UserAgentPolicy::new(crate_name, crate_version, &user_agent);
    push_unique(&mut per_call_policies, telemetry_policy);
}
```
-/
def pipelineNewPerCall (user_agent : UserAgentOptions) (per_call_policies : List Policy) :
    List Policy :=
  let per_call := push_unique per_call_policies PolicyKind.clientRequestId
  if !user_agent.disabled then
    push_unique per_call PolicyKind.userAgent
  else
    per_call

/-- How many policies of concrete kind `k` a segment holds. -/
def countKind (k : PolicyKind) (policies : List Policy) : Nat :=
  (policies.filter (fun p => p.kind = k)).length

/-- Since `p.type_id()` is the `TypeId` of `Arc<dyn Policy>` and the pushed
type `T` is a concrete policy type, the guard of `push_unique` is always
true: `push_unique` always appends. -/
theorem push_unique_always_appends (policies : List Policy) (k : PolicyKind) :
    push_unique policies k = policies ++ [⟨k⟩] := by
  unfold push_unique
  rw [if_pos]
  rw [List.all_eq_true]
  intro p _
  simp [Policy.arcTypeId]

theorem countKind_append (k : PolicyKind) (l₁ l₂ : List Policy) :
    countKind k (l₁ ++ l₂) = countKind k l₁ + countKind k l₂ := by
  simp [countKind, List.filter_append]

/-- C1: evaluation of the code at the failing input.  A per-call list that
already holds a `ClientRequestIdPolicy` (as the repository's own test
`pipeline_with_custom_client_request_id_policy` supplies) comes out of
`Pipeline::new` with TWO policies of that concrete kind: `push_unique`'s
guard compares `TypeId::of::<ClientRequestIdPolicy>()` against the constant
`TypeId::of::<Arc<dyn Policy>>()`, never finds them equal, and appends the
default policy even though one of the same kind is present — the
registration is not idempotent. -/
theorem C1_pushUnique_duplicates_same_kind :
    countKind PolicyKind.clientRequestId
      (pipelineNewPerCall ⟨true⟩ [⟨PolicyKind.clientRequestId⟩]) = 2 ∧
    push_unique [⟨PolicyKind.clientRequestId⟩] PolicyKind.clientRequestId
      = [⟨PolicyKind.clientRequestId⟩, ⟨PolicyKind.clientRequestId⟩] := by
  constructor <;> decide

/-- C5: `Pipeline::new` appends a `UserAgentPolicy` to the per-call segment
iff `user_agent.disabled` is false (the count of user-agent-kind policies
grows by exactly one iff the flag is false), and when it is disabled every
user-agent-kind policy of the resulting segment was already in the
caller-supplied list — `Pipeline::new` adds none. -/
theorem C5_userAgent_appended_iff_enabled
    (ua : UserAgentOptions) (per_call_policies : List Policy) :
    countKind PolicyKind.userAgent (pipelineNewPerCall ua per_call_policies)
      = countKind PolicyKind.userAgent per_call_policies
          + (if ua.disabled then 0 else 1) ∧
    (ua.disabled = true →
      ∀ p ∈ pipelineNewPerCall ua per_call_policies,
        p.kind = PolicyKind.userAgent → p ∈ per_call_policies) := by
  rcases ua with ⟨d⟩
  cases d with
  | true =>
    have hpc : pipelineNewPerCall ⟨true⟩ per_call_policies
        = per_call_policies ++ [⟨PolicyKind.clientRequestId⟩] := by
      simp [pipelineNewPerCall, push_unique_always_appends]
    rw [hpc]
    refine ⟨by rw [countKind_append]; simp [countKind], ?_⟩
    intro _ p hp hk
    rcases List.mem_append.mp hp with h | h
    · exact h
    · simp only [List.mem_singleton] at h
      subst h
      simp at hk
  | false =>
    have hpc : pipelineNewPerCall ⟨false⟩ per_call_policies
        = per_call_policies ++ [⟨PolicyKind.clientRequestId⟩]
          ++ [⟨PolicyKind.userAgent⟩] := by
      simp [pipelineNewPerCall, push_unique_always_appends]
    rw [hpc]
    refine ⟨?_, by intro h; exact absurd h (by simp)⟩
    rw [countKind_append, countKind_append]
    simp [countKind]

/-- Witness for C5 at `disabled = true` and a caller list already holding a
user-agent policy: no further user-agent policy is appended, and the one
present came from the caller. -/
theorem C5_userAgent_appended_iff_enabled_witness :
    countKind PolicyKind.userAgent
        (pipelineNewPerCall ⟨true⟩ [⟨PolicyKind.userAgent⟩])
      = countKind PolicyKind.userAgent [⟨PolicyKind.userAgent⟩]
          + (if (true : Bool) then 0 else 1) ∧
    (⟨PolicyKind.userAgent⟩ : Policy) ∈ [(⟨PolicyKind.userAgent⟩ : Policy)] :=
  ⟨(C5_userAgent_appended_iff_enabled ⟨true⟩ [⟨PolicyKind.userAgent⟩]).1,
   (C5_userAgent_appended_iff_enabled ⟨true⟩ [⟨PolicyKind.userAgent⟩]).2 rfl
     ⟨PolicyKind.userAgent⟩ (by decide) rfl⟩

/-! ## azure_messaging_eventhubs — RecoverableReceiver -/

/-- `AmqpError` (from `azure_core_amqp`): its payload is opaque to the code
under analysis, which only hands it to
`RecoverableConnection::should_retry_amqp_error`. -/
structure AmqpError where
  code : Nat
deriving DecidableEq, Repr

/-- `std::io::ErrorKind` values that occur in the analysed code. -/
inductive IoErrorKind
  | timedOut
  | other (n : Nat)
deriving DecidableEq, Repr

/-- `azure_core::error::ErrorKind` constructors that
`should_retry_receive_operation` can encounter. -/
inductive AzureErrorKind
  | amqp
  | io
  | other (n : Nat)
deriving DecidableEq, Repr

/-- The dynamic type of the value returned by `Error::source()` on an
`azure_core::Error`: a `Box<AmqpError>`, a bare `AmqpError`, a
`std::io::Error`, or anything else.  `downcast_ref::<Box<AmqpError>>`
succeeds exactly on `boxedAmqp`, `downcast_ref::<AmqpError>` exactly on
`amqp`. -/
inductive ErrorSource
  | boxedAmqp (e : AmqpError)
  | amqp (e : AmqpError)
  | ioError (k : IoErrorKind)
  | other (n : Nat)
deriving DecidableEq, Repr

/-- An `azure_core::Error` as observed by the receiver code: its
`ErrorKind` and the (optional) nested source error. -/
structure AzError where
  kind : AzureErrorKind
  source : Option ErrorSource
deriving DecidableEq, Repr

/-- `RecoverableReceiver::should_retry_receive_operation` (receiver.rs lines
38–63).  `should_retry_amqp_error` lives in `RecoverableConnection`, outside
the analysed sources; the spec only says it recognises known transient
faults, so it is passed in as the parameter `should_retry_amqp_error` and
the theorems quantify over it.

```rust
match e.kind() {
    AzureErrorKind::Amqp => {
        if let Some(e) = e.source() {
            if let Some(amqp_error) = e.downcast_ref::<Box<AmqpError>>() {
                RecoverableConnection::should_retry_amqp_error(amqp_error)
            } else if let Some(amqp_error) = e.downcast_ref::<AmqpError>() {
                RecoverableConnection::should_retry_amqp_error(amqp_error)
            } else { false }
        } else { false }
    }
    _ => false,
}
```
-/
def should_retry_receive_operation
    (should_retry_amqp_error : AmqpError → Bool) (e : AzError) : Bool :=
  match e.kind with
  | AzureErrorKind.amqp =>
    match e.source with
    | some s =>
      match s with
      | ErrorSource.boxedAmqp amqp_error => should_retry_amqp_error amqp_error
      | ErrorSource.amqp amqp_error => should_retry_amqp_error amqp_error
      | _ => false
    | none => false
  | _ => false

/-- The nested `AmqpError` of an error, when its source downcasts to one
(boxed or unboxed) — the shape C2 describes. -/
def sourceAmqpError (e : AzError) : Option AmqpError :=
  match e.source with
  | some (ErrorSource.boxedAmqp a) => some a
  | some (ErrorSource.amqp a) => some a
  | _ => none

/-- C2: `should_retry_receive_operation` answers true exactly when the
error's kind is `Amqp`, it has a source downcasting to an `AmqpError`
(boxed or unboxed), and the transient-fault check approves that
`AmqpError`; every other shape is non-retryable. -/
theorem C2_should_retry_iff_amqp_transient
    (should_retry_amqp_error : AmqpError → Bool) (e : AzError) :
    should_retry_receive_operation should_retry_amqp_error e = true ↔
      (e.kind = AzureErrorKind.amqp ∧
       ∃ a, sourceAmqpError e = some a ∧ should_retry_amqp_error a = true) := by
  rcases e with ⟨k, s⟩
  cases k <;>
    rcases s with _ | ⟨_ | _ | _ | _⟩ <;>
      simp [should_retry_receive_operation, sourceAmqpError]

/-- The error synthesized by `receive_delivery`'s closure when the configured
deadline elapses first (receiver.rs lines 108–110):
`Error::new(AzureErrorKind::Io, Box::new(std::io::Error::from(std::io::ErrorKind::TimedOut)))` —
kind `Io`, nested source a `std::io::Error` of kind `TimedOut`. -/
def receiveTimeoutError : AzError :=
  { kind := AzureErrorKind.io
    source := some (ErrorSource.ioError IoErrorKind.timedOut) }

/-- One invocation of the closure passed to `retry_azure_operation` by
`receive_delivery` (receiver.rs lines 95–116).  `ensure_receiver` may fail
(`?`); with a configured timeout the underlying receive races a sleep and
the loser is discarded: `timeoutFires` tells which side of the `select!`
completes first. -/
def receiveDeliveryAttempt (ensured : Except AzError Unit)
    (timeoutConfigured : Bool) (timeoutFires : Bool)
    (underlying : Except AzError Nat) : Except AzError Nat :=
  match ensured with
  | Except.error e => Except.error e
  | Except.ok _ =>
    if timeoutConfigured then
      if timeoutFires then Except.error receiveTimeoutError else underlying
    else underlying

/-- C3 counterexample: the synthesized deadline error is NOT classified
retryable by `should_retry_receive_operation` — even with a transient-fault
check that approves every `AmqpError`, the predicate answers false, because
the synthesized error's kind is `Io`, not `Amqp`. -/
theorem C3_timeout_not_retryable_counterexample :
    should_retry_receive_operation (fun _ => true) receiveTimeoutError
      = false := by decide

/-- C3 (amended): when the deadline fires first, the closure produces the
locally synthesized I/O timed-out error, and that error is subject to the
same predicate as other failures, which classifies it NON-retryable
(false for every transient-fault check), its kind being `Io` rather than
`Amqp`. -/
theorem C3_timeout_error_shape_and_classification
    (underlying : Except AzError Nat)
    (should_retry_amqp_error : AmqpError → Bool) :
    receiveDeliveryAttempt (Except.ok ()) true true underlying
        = Except.error receiveTimeoutError ∧
    receiveTimeoutError.kind = AzureErrorKind.io ∧
    receiveTimeoutError.source
        = some (ErrorSource.ioError IoErrorKind.timedOut) ∧
    should_retry_receive_operation should_retry_amqp_error receiveTimeoutError
        = false := by
  refine ⟨rfl, rfl, rfl, ?_⟩
  simp [should_retry_receive_operation, receiveTimeoutError]

/-- The operations of the `AmqpReceiverApis` trait implemented by
`RecoverableReceiver`. -/
inductive ReceiverOp
  | attach
  | detach
  | setCreditMode
  | creditMode
  | acceptDelivery
  | rejectDelivery
  | releaseDelivery
  | receiveDelivery
deriving DecidableEq, Repr

/-- What the body of one of these trait methods does: diverge through
`unimplemented!(msg)` before producing any result, or run an actual
implementation. -/
inductive OpBehavior
  | unimplementedDiverges (msg : String)
  | implemented
deriving DecidableEq, Repr

/-- Whether an operation's body diverges through `unimplemented!` instead of
returning. -/
def OpBehavior.divergesLoudly : OpBehavior → Bool
  | OpBehavior.unimplementedDiverges _ => true
  | OpBehavior.implemented => false

/-- The `AmqpReceiverApis for RecoverableReceiver` impl (receiver.rs lines
68–144): every operation except `receive_delivery` immediately invokes
`unimplemented!` with a message naming the unsupported operation;
`receive_delivery` has a real body. -/
def recoverableReceiverOp : ReceiverOp → OpBehavior
  | ReceiverOp.attach =>
    OpBehavior.unimplementedDiverges
      "AmqpReceiverClient does not support attach operation"
  | ReceiverOp.detach =>
    OpBehavior.unimplementedDiverges
      "AmqpReceiverClient does not support detach operation"
  | ReceiverOp.setCreditMode =>
    OpBehavior.unimplementedDiverges
      "AmqpReceiverClient does not support set_credit_mode operation"
  | ReceiverOp.creditMode =>
    OpBehavior.unimplementedDiverges
      "AmqpReceiverClient does not support credit_mode operation"
  | ReceiverOp.acceptDelivery =>
    OpBehavior.unimplementedDiverges
      "AmqpReceiverClient does not support accept_delivery operation"
  | ReceiverOp.rejectDelivery =>
    OpBehavior.unimplementedDiverges
      "AmqpReceiverClient does not support reject_delivery operation"
  | ReceiverOp.releaseDelivery =>
    OpBehavior.unimplementedDiverges
      "AmqpReceiverClient does not support release_delivery operation"
  | ReceiverOp.receiveDelivery => OpBehavior.implemented

/-- C8: every `AmqpReceiverApis` operation on `RecoverableReceiver` other
than `receive_delivery` diverges via `unimplemented!` (so it never silently
returns success). -/
theorem C8_unsupported_ops_diverge (op : ReceiverOp)
    (h : op ≠ ReceiverOp.receiveDelivery) :
    (recoverableReceiverOp op).divergesLoudly = true := by
  cases op <;> first
    | exact absurd rfl h
    | rfl

/-- Witness for C8 at the `attach` operation. -/
theorem C8_unsupported_ops_diverge_witness :
    (recoverableReceiverOp ReceiverOp.attach).divergesLoudly = true :=
  C8_unsupported_ops_diverge ReceiverOp.attach (by decide)

/-! ## azure_storage_queue — SasTokenCredentialPolicy -/

/-- An HTTP method. -/
inductive Method
  | get
  | post
  | put
  | delete
  | other (n : Nat)
deriving DecidableEq, Repr

/-- The URL of a request, split into the part before the query string and
the optional query string (`Url::query()` returns `None` when the URL has
no `?` component). -/
structure RequestUrl where
  base : String
  query : Option String
deriving DecidableEq, Repr

/-- A `Request` as the SAS token policy can observe and mutate it. -/
structure Request where
  method : Method
  url : RequestUrl
  headers : List (String × String)
  body : String
deriving DecidableEq, Repr

/-- The query-string computation of `SasTokenCredentialPolicy::send`
(sas_token_policy.rs lines 50–55):

```rust
let query = request.url().query().unwrap_or_default();
let query = if query.is_empty() {
    self.token.clone()
} else {
    format!("{}&{}", self.token, query)
};
```
-/
def sasQuery (token : String) (query : Option String) : String :=
  let query := query.getD ""
  if query.isEmpty then token else token ++ "&" ++ query

/-- The in-place request mutation performed by
`SasTokenCredentialPolicy::send` before delegating:
`request.url_mut().set_query(Some(&query))`. -/
def applySasToken (token : String) (request : Request) : Request :=
  { request with
      url := { request.url with query := some (sasQuery token request.url.query) } }

/-- `SasTokenCredentialPolicy::send` (sas_token_policy.rs lines 43–59): the
policy rewrites the URL query string and then delegates unconditionally to
the next policy (`next[0].send(ctx, request, &next[1..]).await`), whose
result it returns unchanged.  `next` is the rest of the chain, seen as a
function from the (mutated) request to the chain's result. -/
def sasTokenPolicySend (token : String) (next : Request → Except AzError Nat)
    (request : Request) : Except AzError Nat :=
  next (applySasToken token request)

/-- C4: with a non-empty existing query string `q`, the SAS policy rewrites
the query string to exactly `token&q`; with an absent or empty query string
the result is exactly `token`. -/
theorem C4_sas_query_rewrite (token q : String) (request : Request) :
    (request.url.query = some q → q ≠ "" →
      (applySasToken token request).url.query = some (token ++ "&" ++ q)) ∧
    (request.url.query = none ∨ request.url.query = some "" →
      (applySasToken token request).url.query = some token) := by
  constructor
  · intro hq hne
    simp [applySasToken, sasQuery, hq, String.isEmpty_iff, hne]
  · rintro (hq | hq) <;>
      simp [applySasToken, sasQuery, hq,
        show String.isEmpty "" = true by decide]

/-- Witness for C4 on the spec's own example: query `a=1`, token `sig=abc`
(and, for the second conjunct, a request with no query string). -/
theorem C4_sas_query_rewrite_witness :
    (applySasToken "sig=abc"
        ⟨Method.get, ⟨"https://q.example", some "a=1"⟩, [], ""⟩).url.query
      = some ("sig=abc" ++ "&" ++ "a=1") ∧
    (applySasToken "sig=abc"
        ⟨Method.get, ⟨"https://q.example", none⟩, [], ""⟩).url.query
      = some "sig=abc" :=
  ⟨(C4_sas_query_rewrite "sig=abc" "a=1"
      ⟨Method.get, ⟨"https://q.example", some "a=1"⟩, [], ""⟩).1 rfl (by decide),
   (C4_sas_query_rewrite "sig=abc" ""
      ⟨Method.get, ⟨"https://q.example", none⟩, [], ""⟩).2 (Or.inl rfl)⟩

/-- C9: the SAS policy's `send` returns exactly what the rest of the chain
returns on the mutated request (unconditional delegation, no short-circuit,
no dependence on anything but the token, the request, and the chain), and
the mutation touches only the URL's query string: method, headers, body and
the rest of the URL are unchanged. -/
theorem C9_sas_policy_frame (token : String)
    (next : Request → Except AzError Nat) (request : Request) :
    sasTokenPolicySend token next request
        = next (applySasToken token request) ∧
    (applySasToken token request).method = request.method ∧
    (applySasToken token request).headers = request.headers ∧
    (applySasToken token request).body = request.body ∧
    (applySasToken token request).url.base = request.url.base :=
  ⟨rfl, rfl, rfl, rfl, rfl⟩

/-! ## azure_identity — ClientCertificateCredential -/

/-- `AZURE_CLIENT_SEND_CERTIFICATE_CHAIN` handling in
`From<TokenCredentialOptions> for ClientCertificateCredentialOptions`
(client_certificate_credential.rs lines 44–56).  `v` is the value of the
environment variable (`none` when `env.var` fails):

```rust
let send_certificate_chain = env
    .var(AZURE_CLIENT_SEND_CERTIFICATE_CHAIN_ENV_KEY)
    .map(|s| s == "1" || s.to_lowercase() == "true")
    .unwrap_or(false);
```
-/
def sendCertificateChainFromEnv (v : Option String) : Bool :=
  (v.map (fun s => s == "1" || s.toLower == "true")).getD false

/-- The JWT assertion header built by `get_token` (lines 199–219), with the
JSON object of the `format!` strings represented structurally: `x5c = none`
embeds the string without an `"x5c"` field, `x5c = some c` the string with
`"x5c":[c]`. -/
structure JwtHeader where
  alg : String
  typ : String
  x5t : String
  x5c : Option String
deriving DecidableEq, Repr

/-- `get_token`'s header construction (lines 199–219).  A certificate is
represented by its data (a `String`); `encodeCert` is the fallible
`get_encoded_cert` collaborator (base64 of `to_pem`, wrapped in quotes by
the source).

```rust
let header = match self.send_certificate_chain {
    true => {
        let base_signature = get_encoded_cert(cert)?;
        let x5c = match pkcs12_certificate.ca {
            Some(chain) => { ... format!{"{},{}", base_signature, chain} }
            None => base_signature,
        };
        format!(r#"...\x7b"alg":"RS256","typ":"JWT", "x5t":"...", "x5c":[...]\x7d..."#, x5t, x5c)
    }
    false => format!(r#"\x7b"alg":"RS256","typ":"JWT", "x5t":"..."\x7d"#, x5t),
};
```
-/
def buildJwtHeader (encodeCert : String → Option String) (sendChain : Bool)
    (cert : String) (ca : Option (List String)) (x5t : String) :
    Option JwtHeader :=
  match sendChain with
  | true =>
    match encodeCert cert with
    | none => none
    | some base_signature =>
      match ca with
      | some chain =>
        match chain.mapM encodeCert with
        | none => none
        | some encoded =>
          some { alg := "RS256", typ := "JWT", x5t := x5t
                 x5c := some (base_signature ++ ","
                   ++ String.intercalate "," encoded) }
      | none =>
        some { alg := "RS256", typ := "JWT", x5t := x5t
               x5c := some base_signature }
  | false => some { alg := "RS256", typ := "JWT", x5t := x5t, x5c := none }

/-- Result of `Pkcs12::from_der(..).parse2(..)`: optional certificate,
optional private key, optional ca chain. -/
structure Pkcs12Parsed where
  cert : Option String
  pkey : Option Unit
  ca : Option (List String)
deriving Repr

/-- The token endpoint's answer: status code, the body as collected by
`collect()` (fallible), and the body as parsed into `EntraIdTokenResponse`
by `json()` (fallible; `access_token` and `expires_in`). -/
structure HttpRsp where
  status : Nat
  bodyCollect : Option String
  bodyJson : Option (String × Int)
deriving Repr

/-- The external collaborators `get_token` calls into, with each fallible
step's answer as an explicit field (`none` = that call fails). -/
structure TokenEnv where
  joinUrl : Option String
  decodeCert : Option (List Nat)
  pkcs12 : Option Pkcs12Parsed
  thumbprint : Option (List Nat)
  b64 : List Nat → String
  encodeCert : String → Option String
  sign : Option (List Nat)
  httpResponse : Option HttpRsp
  now : Int

/-- The state of a `ClientCertificateCredential` that `get_token` reads. -/
structure CredState where
  tenantId : String
  clientId : String
  sendCertificateChain : Bool
deriving Repr

/-- The errors `get_token` can produce.  `credential msg` is
`Error::message(ErrorKind::Credential, msg)`; `openssl` an
`openssl_error(..)` (also kind `Credential`); `urlParse` the `?` on
`authority_host.join`; `transport` a failed HTTP/body-collection call;
`httpResponse status body` is `http_response_from_body(status, body).into_error()`;
`jsonParse` a failed `json()` deserialization. -/
inductive TokenError
  | credential (msg : String)
  | openssl
  | urlParse
  | transport
  | httpResponse (status : Nat) (body : String)
  | jsonParse
deriving DecidableEq, Repr

/-- `azure_core::credentials::AccessToken`: the secret and its expiry. -/
structure AccessToken where
  token : String
  expires_on : Int
deriving DecidableEq, Repr

/-- The externally observable side effects of one `get_token` run that the
claims talk about, in execution order. -/
inductive Effect
  | parsedCertificate
  | signedJwt
  | httpRequest
deriving DecidableEq, Repr

/-- `StatusCode::is_success()`: 2xx. -/
def isSuccessStatus (status : Nat) : Bool :=
  200 ≤ status && status ≤ 299

/-- `ClientCertificateCredential::get_token` (client_certificate_credential.rs
lines 146–267), as a function of the credential state, the collaborators'
answers and the scope slice.  Returns the result together with the trace of
certificate-parsing, signing and HTTP effects the run performed. -/
def getTokenImpl (cred : CredState) (env : TokenEnv) (scopes : List String) :
    Except TokenError AccessToken × List Effect :=
  if scopes.length ≠ 1 then
    (Except.error (TokenError.credential
      "only one scope is supported for IMDS authentication"), [])
  else
    match scopes.head? with
    | none =>
      (Except.error (TokenError.credential "no scopes were provided"), [])
    | some _scope =>
      match env.joinUrl with
      | none => (Except.error TokenError.urlParse, [])
      | some _url =>
        match env.decodeCert with
        | none =>
          (Except.error (TokenError.credential "Base64 decode failed"), [])
        | some _certificate =>
          match env.pkcs12 with
          | none => (Except.error TokenError.openssl, [Effect.parsedCertificate])
          | some pkcs12_certificate =>
            match pkcs12_certificate.cert with
            | none =>
              (Except.error (TokenError.credential "Certificate not found"),
               [Effect.parsedCertificate])
            | some cert =>
              match pkcs12_certificate.pkey with
              | none =>
                (Except.error (TokenError.credential "Private key not found"),
                 [Effect.parsedCertificate])
              | some _pkey =>
                match env.thumbprint with
                | none =>
                  (Except.error TokenError.openssl, [Effect.parsedCertificate])
                | some thumbprint =>
                  match buildJwtHeader env.encodeCert cred.sendCertificateChain
                      cert pkcs12_certificate.ca (env.b64 thumbprint) with
                  | none =>
                    (Except.error TokenError.openssl, [Effect.parsedCertificate])
                  | some _header =>
                    match env.sign with
                    | none =>
                      (Except.error TokenError.openssl,
                       [Effect.parsedCertificate, Effect.signedJwt])
                    | some _signature =>
                      match env.httpResponse with
                      | none =>
                        (Except.error TokenError.transport,
                         [Effect.parsedCertificate, Effect.signedJwt,
                          Effect.httpRequest])
                      | some rsp =>
                        if !isSuccessStatus rsp.status then
                          match rsp.bodyCollect with
                          | none =>
                            (Except.error TokenError.transport,
                             [Effect.parsedCertificate, Effect.signedJwt,
                              Effect.httpRequest])
                          | some rsp_body =>
                            (Except.error
                              (TokenError.httpResponse rsp.status rsp_body),
                             [Effect.parsedCertificate, Effect.signedJwt,
                              Effect.httpRequest])
                        else
                          match rsp.bodyJson with
                          | none =>
                            (Except.error TokenError.jsonParse,
                             [Effect.parsedCertificate, Effect.signedJwt,
                              Effect.httpRequest])
                          | some (access_token, expires_in) =>
                            (Except.ok ⟨access_token, env.now + expires_in⟩,
                             [Effect.parsedCertificate, Effect.signedJwt,
                              Effect.httpRequest])

/-- The scope-cardinality error of `get_token`. -/
def scopeCardinalityError : TokenError :=
  TokenError.credential "only one scope is supported for IMDS authentication"

/-- C6: with a scope slice whose length is not 1, `get_token` returns the
`Credential`-kind scope-cardinality error at once, with an empty effect
trace — no certificate parsing, no signing, no HTTP request; with exactly
one scope it proceeds past that validation (whatever it then returns, it is
never the scope-cardinality error). -/
theorem C6_scope_cardinality (cred : CredState) (env : TokenEnv)
    (scopes : List String) :
    (scopes.length ≠ 1 →
      getTokenImpl cred env scopes = (Except.error scopeCardinalityError, [])) ∧
    (scopes.length = 1 →
      (getTokenImpl cred env scopes).1 ≠ Except.error scopeCardinalityError) := by
  constructor
  · intro h
    unfold getTokenImpl
    rw [if_pos h]
    rfl
  · intro h
    rcases scopes with _ | ⟨s, rest⟩
    · simp at h
    · rcases rest with _ | ⟨t, rest⟩
      · unfold getTokenImpl scopeCardinalityError
        rw [if_neg (by simp)]
        repeat' split
        all_goals simp_all
      · simp at h

/-- Witness for C6: two scopes are rejected without any effect, and with
one scope the cardinality error is not produced. -/
theorem C6_scope_cardinality_witness :
    ((["a", "b"] : List String).length ≠ 1 ∧
      getTokenImpl ⟨"tenant", "client", false⟩
          ⟨none, none, none, none, fun _ => "", fun _ => none, none, none, 0⟩
          ["a", "b"]
        = (Except.error scopeCardinalityError, [])) ∧
    ((["a"] : List String).length = 1 ∧
      (getTokenImpl ⟨"tenant", "client", false⟩
          ⟨none, none, none, none, fun _ => "", fun _ => none, none, none, 0⟩
          ["a"]).1
        ≠ Except.error scopeCardinalityError) :=
  ⟨⟨by decide,
    (C6_scope_cardinality ⟨"tenant", "client", false⟩
        ⟨none, none, none, none, fun _ => "", fun _ => none, none, none, 0⟩
        ["a", "b"]).1 (by decide)⟩,
   ⟨by decide,
    (C6_scope_cardinality ⟨"tenant", "client", false⟩
        ⟨none, none, none, none, fun _ => "", fun _ => none, none, none, 0⟩
        ["a"]).2 (by decide)⟩⟩

/-- C7: when every step up to the HTTP call succeeds and the token endpoint
answers with a non-success status, `get_token` returns the error built from
that status and the collected response body — no `AccessToken` — and the
whole call performs exactly one HTTP request (the failure is terminal, the
credential does not retry it). -/
theorem C7_non_success_terminal (cred : CredState) (env : TokenEnv)
    (s u : String) (der : List Nat) (p12 : Pkcs12Parsed) (cert : String)
    (th : List Nat) (hdr : JwtHeader) (sig : List Nat) (rsp : HttpRsp)
    (rsp_body : String)
    (hj : env.joinUrl = some u)
    (hd : env.decodeCert = some der)
    (hp : env.pkcs12 = some p12)
    (hc : p12.cert = some cert)
    (hk : p12.pkey = some ())
    (hth : env.thumbprint = some th)
    (hhdr : buildJwtHeader env.encodeCert cred.sendCertificateChain cert
        p12.ca (env.b64 th) = some hdr)
    (hsig : env.sign = some sig)
    (hrsp : env.httpResponse = some rsp)
    (hst : isSuccessStatus rsp.status = false)
    (hb : rsp.bodyCollect = some rsp_body) :
    getTokenImpl cred env [s]
      = (Except.error (TokenError.httpResponse rsp.status rsp_body),
         [Effect.parsedCertificate, Effect.signedJwt, Effect.httpRequest]) := by
  unfold getTokenImpl
  rw [if_neg (by simp)]
  simp only [List.head?, hj, hd, hp, hc, hk, hth, hhdr, hsig, hrsp, hst, hb,
    Bool.not_false, if_pos]

/-- Witness for C7 on a concrete successful-until-HTTP environment whose
token endpoint answers 400 with body `oops`. -/
theorem C7_non_success_terminal_witness :
    getTokenImpl ⟨"tenant", "client", false⟩
        ⟨some "u", some [], some ⟨some "c", some (), none⟩, some [],
         fun _ => "T", fun c => some c, some [],
         some ⟨400, some "oops", none⟩, 0⟩
        ["scope"]
      = (Except.error (TokenError.httpResponse 400 "oops"),
         [Effect.parsedCertificate, Effect.signedJwt, Effect.httpRequest]) :=
  C7_non_success_terminal ⟨"tenant", "client", false⟩
    ⟨some "u", some [], some ⟨some "c", some (), none⟩, some [],
     fun _ => "T", fun c => some c, some [],
     some ⟨400, some "oops", none⟩, 0⟩
    "scope" "u" [] ⟨some "c", some (), none⟩ "c" []
    ⟨"RS256", "JWT", "T", none⟩ [] ⟨400, some "oops", none⟩ "oops"
    rfl rfl rfl rfl rfl rfl rfl rfl rfl (by decide) rfl

/-- A successfully built JWT assertion header carries an `x5c` field exactly
when `send_certificate_chain` is true. -/
theorem buildJwtHeader_x5c (encodeCert : String → Option String)
    (sendChain : Bool) (cert : String) (ca : Option (List String))
    (x5t : String) (hdr : JwtHeader)
    (h : buildJwtHeader encodeCert sendChain cert ca x5t = some hdr) :
    hdr.x5c.isSome = sendChain := by
  cases sendChain with
  | false =>
    simp only [buildJwtHeader, Option.some.injEq] at h
    subst h
    rfl
  | true =>
    unfold buildJwtHeader at h
    repeat' split at h
    all_goals try simp_all
    all_goals (subst h; rfl)

/-- C10: `send_certificate_chain` derived from the environment variable is
true exactly when the variable is set to `1` or case-insensitively to
`true` (anything else, or absence, gives false), and a successfully built
JWT assertion header contains an `x5c` field exactly when that flag is
true. -/
theorem C10_send_certificate_chain (v : Option String)
    (encodeCert : String → Option String) (cert : String)
    (ca : Option (List String)) (x5t : String) (hdr : JwtHeader) :
    (sendCertificateChainFromEnv v = true ↔
      ∃ s, v = some s ∧ (s = "1" ∨ s.toLower = "true")) ∧
    (buildJwtHeader encodeCert (sendCertificateChainFromEnv v) cert ca x5t
        = some hdr →
      (hdr.x5c.isSome = true ↔ sendCertificateChainFromEnv v = true)) := by
  constructor
  · rcases v with _ | s <;> simp [sendCertificateChainFromEnv]
  · intro hbuild
    rw [buildJwtHeader_x5c encodeCert (sendCertificateChainFromEnv v) cert
      ca x5t hdr hbuild]

/-- Witness for C10 at `AZURE_CLIENT_SEND_CERTIFICATE_CHAIN=1` with a
total certificate encoder: the built header carries an `x5c` field. -/
theorem C10_send_certificate_chain_witness :
    buildJwtHeader (fun c => some c)
        (sendCertificateChainFromEnv (some "1")) "c" none "T"
      = some ⟨"RS256", "JWT", "T", some "c"⟩ ∧
    ((⟨"RS256", "JWT", "T", some "c"⟩ : JwtHeader).x5c.isSome = true ↔
      sendCertificateChainFromEnv (some "1") = true) :=
  ⟨by decide,
   (C10_send_certificate_chain (some "1") (fun c => some c) "c" none "T"
      ⟨"RS256", "JWT", "T", some "c"⟩).2 (by decide)⟩

end Spec2Proof
